import Mathlib

/-!
Verification development for the meal-planner backend
(`src/meal_planner/{schemas,solver,data_access,validation}.py`).

The Python code is shallowly embedded: floats become exact rationals (ℚ),
`Optional[float]` becomes `Option ℚ`, Python truthiness tests on optional
floats (`if self.fiber`) become the `truthy` predicate below, fallible
constructors (pydantic validation) return `Except String _`, and the data
access layer is an explicit environment parameter.  Mutation of the
`used_foods` set is modelled by explicit state passing of a `Finset String`.
-/

set_option maxRecDepth 4000

namespace MealPlanner

/-- Python truthiness of an `Optional[float]`: `None` and `0.0` are falsy. -/
def truthy : Option ℚ → Bool
  | none => false
  | some x => decide (x ≠ 0)

/-- Value of `o or 0` in Python (`None` and `0.0` both give `0`). -/
def or_zero (o : Option ℚ) : ℚ := o.getD 0

/-- Nonnegativity of an optional field (pydantic `Field(ge=0)`). -/
def opt_nonneg : Option ℚ → Prop
  | none => True
  | some x => 0 ≤ x

instance : ∀ o : Option ℚ, Decidable (opt_nonneg o) := fun o => by
  cases o <;> simp only [opt_nonneg] <;> infer_instance

/-- Python `round` to an integer: round half to even (banker's rounding). -/
def py_round_int (q : ℚ) : ℤ :=
  let f := ⌊q⌋
  let r := q - f
  if r < 1/2 then f
  else if 1/2 < r then f + 1
  else if f % 2 = 0 then f else f + 1

/-- Python `round(x, 1)`: round to one decimal place, half to even. -/
def py_round1 (q : ℚ) : ℚ := (py_round_int (q * 10) : ℚ) / 10

/-! Enumerations from `schemas.py`. -/

/-- MealType enum. -/
inductive MealType
  | BREAKFAST | LUNCH | SNACK | DINNER
deriving DecidableEq, Repr

/-- DietType enum. -/
inductive DietType
  | OMNIVORE | VEGETARIAN | VEGAN | PESCATARIAN | KETO | PALEO
  | LOW_CARB | GLUTEN_FREE | DAIRY_FREE
deriving DecidableEq, Repr

/-- Allergen enum. -/
inductive Allergen
  | GLUTEN | DAIRY | EGGS | NUTS | PEANUTS | SOY | FISH | SHELLFISH
  | SESAME | SULFITES
deriving DecidableEq, Repr

/-- MealSourcePreference enum. -/
inductive MealSourcePreference
  | FRESH | RECIPES | QUICK | BALANCED
deriving DecidableEq, Repr

/-- FoodSource enum. -/
inductive FoodSource
  | CIQUAL | OFF | GUSTAR | MANUAL
deriving DecidableEq, Repr

/-- FoodRole enum. -/
inductive FoodRole
  | PROTEIN | CARB | VEGETABLE | FRUIT | FAT | DAIRY | DRINK | SEASONING
deriving DecidableEq, Repr

/-- Macros model (`schemas.Macros`): four required fields plus four
optional fields (`fiber`, `sodium`, `sugar`, `saturated_fat`). -/
structure Macros where
  calories : ℚ
  proteins : ℚ
  carbs : ℚ
  fats : ℚ
  fiber : Option ℚ := none
  sodium : Option ℚ := none
  sugar : Option ℚ := none
  saturated_fat : Option ℚ := none
deriving DecidableEq, Repr

/-- Pydantic field constraints on `Macros`: every present field is `ge=0`. -/
def Macros.valid (m : Macros) : Prop :=
  0 ≤ m.calories ∧ 0 ≤ m.proteins ∧ 0 ≤ m.carbs ∧ 0 ≤ m.fats ∧
  opt_nonneg m.fiber ∧ opt_nonneg m.sodium ∧ opt_nonneg m.sugar ∧
  opt_nonneg m.saturated_fat

instance (m : Macros) : Decidable m.valid := by
  unfold Macros.valid; infer_instance

/-- Optional-field arm of `Macros.scale`:
`self.fiber * factor if self.fiber else None`. -/
def opt_scale (o : Option ℚ) (factor : ℚ) : Option ℚ :=
  if truthy o then some (or_zero o * factor) else none

/-- Optional-field arm of `Macros.__add__`:
`(a or 0) + (b or 0) if a or b else None`. -/
def opt_add (a b : Option ℚ) : Option ℚ :=
  if truthy a || truthy b then some (or_zero a + or_zero b) else none

/-- Macros.scale: scale all macros by a factor. -/
def Macros.scale (m : Macros) (factor : ℚ) : Macros where
  calories := m.calories * factor
  proteins := m.proteins * factor
  carbs := m.carbs * factor
  fats := m.fats * factor
  fiber := opt_scale m.fiber factor
  sodium := opt_scale m.sodium factor
  sugar := opt_scale m.sugar factor
  saturated_fat := opt_scale m.saturated_fat factor

/-- Macros.__add__: add two Macros together. -/
def Macros.add (m other : Macros) : Macros where
  calories := m.calories + other.calories
  proteins := m.proteins + other.proteins
  carbs := m.carbs + other.carbs
  fats := m.fats + other.fats
  fiber := opt_add m.fiber other.fiber
  sodium := opt_add m.sodium other.sodium
  sugar := opt_add m.sugar other.sugar
  saturated_fat := opt_add m.saturated_fat other.saturated_fat

/-- Macros.zero: a zero-valued Macros object. -/
def Macros.zero : Macros :=
  { calories := 0, proteins := 0, carbs := 0, fats := 0 }

/-- FoodItem (`schemas.FoodItem`): a food from one of the data sources.
Portion bounds are required floats with defaults (10/500), per the schema. -/
structure FoodItem where
  id : String
  source : FoodSource
  name : String
  name_fr : Option String := none
  brand : Option String := none
  macros_per_100g : Macros
  role : FoodRole
  category : Option String := none
  tags : List String := []
  allergens : List Allergen := []
  diet_compatible : List DietType := []
  typical_portion_g : ℚ := 100
  min_portion_g : ℚ := 10
  max_portion_g : ℚ := 500
  image_url : Option String := none
deriving DecidableEq, Repr

/-- MealComponent (`schemas.MealComponent`): a food reference with the
solver-computed quantity and macros. -/
structure MealComponent where
  food_id : String
  source : FoodSource
  name : String
  name_fr : Option String := none
  grams : ℚ
  servings : Option ℚ := none
  computed_macros : Macros
  role : FoodRole
  image_url : Option String := none
deriving DecidableEq, Repr

/-- ComposedMeal (`schemas.ComposedMeal`): a meal-slot tag, the component
list and the slot's target macros. -/
structure ComposedMeal where
  meal_type : MealType
  components : List MealComponent
  target_macros : Macros
  display_name : Option String := none
  display_description : Option String := none
deriving DecidableEq, Repr

/-- Pydantic construction of a `ComposedMeal`: the `components` field is
declared `Field(min_length=1)`, so an empty component list is rejected
with a validation error. -/
def mkComposedMeal (meal_type : MealType) (components : List MealComponent)
    (target_macros : Macros) : Except String ComposedMeal :=
  if components.length < 1 then
    .error "ValidationError: components: List should have at least 1 item"
  else
    .ok { meal_type := meal_type, components := components,
          target_macros := target_macros }

/-- ComposedMeal.actual_macros: sum of the components' computed macros,
starting from `Macros.zero()`. -/
def ComposedMeal.actual_macros_of (components : List MealComponent) : Macros :=
  components.foldl (fun result comp => result.add comp.computed_macros)
    Macros.zero

/-- ComposedMeal.actual_macros property. -/
def ComposedMeal.actual_macros (meal : ComposedMeal) : Macros :=
  ComposedMeal.actual_macros_of meal.components

/-- MealTargets (`solver.MealTargets`): per-meal nutrition targets. -/
structure MealTargets where
  meal_type : MealType
  target_calories : ℚ
  target_proteins : Option ℚ := none
  target_carbs : Option ℚ := none
  target_fats : Option ℚ := none
deriving DecidableEq, Repr

/-! QuantityCalculator (`solver.QuantityCalculator`). -/

/-- QuantityCalculator.calculate_grams_for_calories: grams needed to reach
a calorie target, with fail-closed on nonpositive calorie density, optional
clamping and rounding to one decimal. -/
def calculate_grams_for_calories (food : FoodItem) (target_calories : ℚ)
    (min_grams : Option ℚ := none) (max_grams : Option ℚ := none) : ℚ :=
  if food.macros_per_100g.calories ≤ 0 then 0
  else
    let grams := target_calories / food.macros_per_100g.calories * 100
    let grams := match min_grams with
      | some lo => max grams lo
      | none => grams
    let grams := match max_grams with
      | some hi => min grams hi
      | none => grams
    py_round1 grams

/-- QuantityCalculator.compute_macros_for_grams. -/
def compute_macros_for_grams (food : FoodItem) (grams : ℚ) : Macros :=
  food.macros_per_100g.scale (grams / 100)

/-- Role weight table of
QuantityCalculator.distribute_calories_by_roles; `role_weights.get(r, 10)`
never hits the default because all eight roles are present. -/
def role_weight : FoodRole → ℚ
  | .PROTEIN => 35
  | .CARB => 40
  | .VEGETABLE => 10
  | .FAT => 15
  | .FRUIT => 20
  | .DAIRY => 25
  | .DRINK => 5
  | .SEASONING => 0

/-- QuantityCalculator.distribute_calories_by_roles: the dict it builds,
read back as a total function (`.get(role, 0)` on a missing key gives 0). -/
def distribute_calories_by_roles (target_calories : ℚ)
    (roles : List FoodRole) : FoodRole → ℚ :=
  let total_weight := (roles.map role_weight).sum
  fun role =>
    if role ∈ roles then role_weight role / total_weight * target_calories
    else 0

/-! MealComposer (`solver.MealComposer`).  The data access call
`get_foods_for_meal` is abstracted as an environment
`env : FoodRole → List FoodItem` giving the candidate list per role
(`role not in foods_by_role or not foods_by_role[role]` is the empty list). -/

/-- MealComposer._get_roles_for_meal_type. -/
def get_roles_for_meal_type : MealType → List FoodRole
  | .BREAKFAST => [.CARB, .DAIRY, .FRUIT]
  | .SNACK => [.FRUIT, .DAIRY]
  | _ => [.PROTEIN, .CARB, .VEGETABLE]

/-- MealComposer._select_food: first candidate not yet used, else the
first candidate, else nothing. -/
def select_food (candidates : List FoodItem) (used_foods : Finset String) :
    Option FoodItem :=
  match candidates.find? (fun food => food.id ∉ used_foods) with
  | some food => some food
  | none => candidates.head?

/-- MealComposer._adjust_quantities: rescale every component's grams and
computed macros by `target_calories / current_total` (grams re-rounded to
one decimal), unless the list is empty or the current total is ≤ 0. -/
def adjust_quantities (components : List MealComponent)
    (target_calories : ℚ) : List MealComponent :=
  if components = [] then components
  else
    let current_total := (components.map (·.computed_macros.calories)).sum
    if current_total ≤ 0 then components
    else
      let adjustment_factor := target_calories / current_total
      components.map (fun comp =>
        { food_id := comp.food_id
          source := comp.source
          name := comp.name
          name_fr := comp.name_fr
          grams := py_round1 (comp.grams * adjustment_factor)
          computed_macros := comp.computed_macros.scale adjustment_factor
          role := comp.role
          image_url := comp.image_url })

/-- One iteration of the role loop in MealComposer.compose_meal: possibly
extend the component list and the used-foods set. -/
def compose_step (env : FoodRole → List FoodItem)
    (calorie_distribution : FoodRole → ℚ)
    (acc : List MealComponent × Finset String) (role : FoodRole) :
    List MealComponent × Finset String :=
  let candidates := env role
  if candidates = [] then acc
  else
    match select_food candidates acc.2 with
    | none => acc
    | some food =>
      let grams := calculate_grams_for_calories food
        (calorie_distribution role) (some food.min_portion_g)
        (some food.max_portion_g)
      if grams ≤ 0 then acc
      else
        let computed_macros := compute_macros_for_grams food grams
        let component : MealComponent :=
          { food_id := food.id
            source := food.source
            name := food.name
            name_fr := food.name_fr
            grams := grams
            computed_macros := computed_macros
            role := role
            image_url := food.image_url }
        (acc.1 ++ [component], insert food.id acc.2)

/-- MealComposer.compose_meal with an explicit `used_foods` set (the
`used_foods is None` default is `compose_meal_opt` below).  Returns the
pydantic construction result together with the final state of the
caller-supplied mutable set, which is updated even when the final
`ComposedMeal(...)` construction fails. -/
def compose_meal (env : FoodRole → List FoodItem) (targets : MealTargets)
    (used_foods : Finset String) :
    Except String ComposedMeal × Finset String :=
  let roles := get_roles_for_meal_type targets.meal_type
  let calorie_distribution :=
    distribute_calories_by_roles targets.target_calories roles
  let built := roles.foldl (compose_step env calorie_distribution)
    ([], used_foods)
  let components := adjust_quantities built.1 targets.target_calories
  let target_macros : Macros :=
    { calories := targets.target_calories
      proteins := or_zero targets.target_proteins
      carbs := or_zero targets.target_carbs
      fats := or_zero targets.target_fats }
  (mkComposedMeal targets.meal_type components target_macros, built.2)

/-- MealComposer.compose_meal at the Python call boundary: an omitted or
`None` `used_foods` argument makes the composer allocate a fresh empty set,
so the caller has no alias to observe; a supplied set is mutated in place
and its final contents are returned to the caller. -/
def compose_meal_opt (env : FoodRole → List FoodItem) (targets : MealTargets)
    (used_foods : Option (Finset String)) :
    Except String ComposedMeal × Option (Finset String) :=
  match used_foods with
  | none => ((compose_meal env targets ∅).1, none)
  | some used => let r := compose_meal env targets used
                 (r.1, some r.2)

/-! Constraint schemas (`schemas.py`) used by the solver. -/

/-- NutritionTarget (`schemas.NutritionTarget`). -/
structure NutritionTarget where
  calories : ℚ
  proteins : Option ℚ := none
  carbs : Option ℚ := none
  fats : Option ℚ := none
  fiber_min : Option ℚ := none
  sodium_max : Option ℚ := none
  calorie_tolerance_pct : ℚ := 5
  macro_tolerance_pct : ℚ := 10
deriving DecidableEq, Repr

/-- MealDistribution (`schemas.MealDistribution`): how daily calories are
split across the four slots. -/
structure MealDistribution where
  breakfast_pct : ℚ := 25
  lunch_pct : ℚ := 35
  snack_pct : ℚ := 10
  dinner_pct : ℚ := 30
deriving DecidableEq, Repr

/-- Pydantic construction of a MealDistribution: each field is
`ge=0, le=100`, and the `validate_total` model validator rejects a total
differing from 100 by more than 0.1. -/
def mkMealDistribution (breakfast_pct lunch_pct snack_pct dinner_pct : ℚ) :
    Except String MealDistribution :=
  if breakfast_pct < 0 ∨ 100 < breakfast_pct ∨ lunch_pct < 0 ∨
      100 < lunch_pct ∨ snack_pct < 0 ∨ 100 < snack_pct ∨ dinner_pct < 0 ∨
      100 < dinner_pct then
    .error "ValidationError: field out of range"
  else
    let total := breakfast_pct + lunch_pct + snack_pct + dinner_pct
    if |total - 100| > 1/10 then
      .error "Meal distribution must sum to 100%"
    else
      .ok { breakfast_pct := breakfast_pct, lunch_pct := lunch_pct,
            snack_pct := snack_pct, dinner_pct := dinner_pct }

/-- UserConstraints (`schemas.UserConstraints`), restricted to the fields
the solver and the validator read. -/
structure UserConstraints where
  daily_target : NutritionTarget
  meal_distribution : MealDistribution := {}
  diet_type : DietType := .OMNIVORE
  allergies : List Allergen := []
  intolerances : List Allergen := []
  meal_source_preference : MealSourcePreference := .BALANCED
  num_days : ℕ := 7
  include_cheat_meal : Bool := false
  cheat_meal_day : Option ℕ := none
deriving DecidableEq, Repr

/-- SolverConfig (`solver.SolverConfig`). -/
structure SolverConfig where
  calorie_tolerance_pct : ℚ := 5
  macro_tolerance_pct : ℚ := 10
  max_components_per_meal : ℕ := 5
  min_components_per_meal : ℕ := 2
  prefer_variety : Bool := true
deriving DecidableEq, Repr

/-- PlannedMeal (`schemas.PlannedMeal`). -/
structure PlannedMeal where
  day : ℕ
  meal : ComposedMeal
deriving DecidableEq, Repr

/-- DailyPlan (`schemas.DailyPlan`). -/
structure DailyPlan where
  day : ℕ
  meals : List PlannedMeal
  daily_totals : Macros
  is_cheat_day : Bool := false
deriving DecidableEq, Repr

/-- MealPlan (`schemas.MealPlan`). -/
structure MealPlan where
  id : String
  created_at : String
  constraints : UserConstraints
  days : List DailyPlan
  weekly_totals : Macros
  weekly_averages : Macros
  is_valid : Bool
  validation_errors : List String := []
deriving DecidableEq, Repr

/-- SolverOutput (`schemas.SolverOutput`). -/
structure SolverOutput where
  success : Bool
  plan : Option MealPlan := none
  infeasibility_reason : Option String := none
  relaxation_suggestions : List String := []
  solve_time_ms : ℚ
  iterations : ℕ
deriving DecidableEq, Repr

/-! MealPlanSolver (`solver.MealPlanSolver`). -/

/-- One per-slot target dict built by `_compute_daily_targets`
(`{'calories': ..., 'proteins': ..., 'carbs': ..., 'fats': ...}`). -/
structure SlotTarget where
  calories : ℚ
  proteins : Option ℚ := none
  carbs : Option ℚ := none
  fats : Option ℚ := none
deriving DecidableEq, Repr

/-- The per-day target dict keyed by MealType, in insertion order
breakfast, lunch, snack, dinner. -/
structure DailyTargets where
  breakfast : SlotTarget
  lunch : SlotTarget
  snack : SlotTarget
  dinner : SlotTarget
deriving DecidableEq, Repr

/-- One slot entry of MealPlanSolver._compute_daily_targets:
`calories` is always `daily.calories * pct / 100`; each optional macro is
`(daily.x or 0) * pct / 100 if daily.x else None` (Python truthiness). -/
def slot_target_of (daily : NutritionTarget) (pct : ℚ) : SlotTarget where
  calories := daily.calories * pct / 100
  proteins :=
    if truthy daily.proteins then some (or_zero daily.proteins * pct / 100)
    else none
  carbs :=
    if truthy daily.carbs then some (or_zero daily.carbs * pct / 100)
    else none
  fats :=
    if truthy daily.fats then some (or_zero daily.fats * pct / 100)
    else none

/-- MealPlanSolver._compute_daily_targets. -/
def compute_daily_targets (constraints : UserConstraints) : DailyTargets :=
  let dist := constraints.meal_distribution
  let daily := constraints.daily_target
  { breakfast := slot_target_of daily dist.breakfast_pct
    lunch := slot_target_of daily dist.lunch_pct
    snack := slot_target_of daily dist.snack_pct
    dinner := slot_target_of daily dist.dinner_pct }

/-- One slot entry of MealPlanSolver._adjust_for_cheat_day: calories are
multiplied by 1.3, the macro targets are carried over unchanged. -/
def cheat_slot (target : SlotTarget) : SlotTarget where
  calories := target.calories * (13/10)
  proteins := target.proteins
  carbs := target.carbs
  fats := target.fats

/-- MealPlanSolver._adjust_for_cheat_day. -/
def adjust_for_cheat_day (targets : DailyTargets) : DailyTargets :=
  { breakfast := cheat_slot targets.breakfast
    lunch := cheat_slot targets.lunch
    snack := cheat_slot targets.snack
    dinner := cheat_slot targets.dinner }

/-- The MealTargets record the solver builds for one slot. -/
def meal_targets_of (meal_type : MealType) (slot : SlotTarget) : MealTargets :=
  { meal_type := meal_type
    target_calories := slot.calories
    target_proteins := slot.proteins
    target_carbs := slot.carbs
    target_fats := slot.fats }

/-- The slot iteration order of the `day_targets.items()` loop. -/
def DailyTargets.items (targets : DailyTargets) :
    List (MealType × SlotTarget) :=
  [(.BREAKFAST, targets.breakfast), (.LUNCH, targets.lunch),
   (.SNACK, targets.snack), (.DINNER, targets.dinner)]

/-- Environment of one solve invocation: the result of the (awaited)
`data.get_foods_for_meal` call for a given day index and meal type.  It is
`Except`-valued because the data layer performs I/O and may raise; the
diet, allergen and source-preference arguments are fixed for the whole
invocation and absorbed into the oracle. -/
def SolveEnv : Type :=
  ℕ → MealType → Except String (FoodRole → List FoodItem)

/-- One slot of the inner meal loop of MealPlanSolver.solve: fetch the
candidates, compose the meal (passing the shared used-foods set only when
`prefer_variety` is on), and propagate any exception. -/
def solve_meal (env_day : MealType → Except String (FoodRole → List FoodItem))
    (prefer_variety : Bool) (meal_type : MealType) (slot : SlotTarget)
    (used_foods : Finset String) :
    Except String (ComposedMeal × Finset String) :=
  match env_day meal_type with
  | .error e => .error e
  | .ok foods_by_role =>
    match compose_meal_opt foods_by_role (meal_targets_of meal_type slot)
        (if prefer_variety then some used_foods else none) with
    | (.error e, _) => .error e
    | (.ok meal, used) => .ok (meal, used.getD used_foods)

/-- The inner `for meal_type, meal_target in day_targets.items()` loop:
accumulates the planned meals and the running daily total. -/
def solve_slots (env_day : MealType → Except String (FoodRole → List FoodItem))
    (prefer_variety : Bool) (day_index : ℕ) :
    List (MealType × SlotTarget) → List PlannedMeal → Macros →
    Finset String → Except String (List PlannedMeal × Macros × Finset String)
  | [], meals, daily_total, used_foods => .ok (meals, daily_total, used_foods)
  | (meal_type, slot) :: rest, meals, daily_total, used_foods =>
    match solve_meal env_day prefer_variety meal_type slot used_foods with
    | .error e => .error e
    | .ok (composed_meal, used_foods') =>
      solve_slots env_day prefer_variety day_index rest
        (meals ++ [{ day := day_index, meal := composed_meal }])
        (daily_total.add composed_meal.actual_macros) used_foods'

/-- The outer per-day loop of MealPlanSolver.solve.  Returns the number of
iterations performed (the counter is incremented at the top of each day)
together with either the day list or the first exception raised. -/
def solve_loop (env : SolveEnv) (constraints : UserConstraints)
    (prefer_variety : Bool) :
    List ℕ → List DailyPlan → Finset String → ℕ →
    ℕ × Except String (List DailyPlan)
  | [], days, _, iterations => (iterations, .ok days)
  | day_index :: rest, days, used_foods, iterations =>
    let iterations := iterations + 1
    let is_cheat_day := constraints.include_cheat_meal &&
      constraints.cheat_meal_day = some day_index
    let daily_targets := compute_daily_targets constraints
    let day_targets :=
      if is_cheat_day then adjust_for_cheat_day daily_targets
      else daily_targets
    match solve_slots (env day_index) prefer_variety day_index
        day_targets.items [] Macros.zero used_foods with
    | .error e => (iterations, .error e)
    | .ok (meals, daily_total, used_foods') =>
      let daily_plan : DailyPlan :=
        { day := day_index, meals := meals, daily_totals := daily_total,
          is_cheat_day := is_cheat_day }
      solve_loop env constraints prefer_variety rest (days ++ [daily_plan])
        used_foods' iterations

/-- MealPlanSolver._validate_plan: per-day calorie deviation check against
`daily_target.calorie_tolerance_pct`. -/
def validate_plan (days : List DailyPlan) (constraints : UserConstraints) :
    Bool × List String :=
  let tolerance := constraints.daily_target.calorie_tolerance_pct
  let errors := days.filterMap (fun day =>
    let target := constraints.daily_target.calories
    let actual := day.daily_totals.calories
    let deviation := |actual - target| / target * 100
    if deviation > tolerance then
      let j := day.day + 1
      some s!"Jour {j}: ecart hors tolerance"
    else none)
  (errors.length = 0, errors)

/-- The fixed relaxation suggestions of the solver's except branch. -/
def relaxation_suggestions_fixed : List String :=
  ["Essayez d'augmenter la tolérance calorique",
   "Réduisez les restrictions alimentaires"]

/-- The try-block body of MealPlanSolver.solve: the per-day loop, started
on day indices `range(num_days)` with no days built, an empty used-foods
set and a zero iteration counter. -/
def solve_body (env : SolveEnv) (constraints : UserConstraints)
    (prefer_variety : Bool) : ℕ × Except String (List DailyPlan) :=
  solve_loop env constraints prefer_variety
    (List.range constraints.num_days) [] ∅ 0

/-- MealPlanSolver.solve: the whole per-day/per-slot generation wrapped in
the outermost try/except.  `solve_time_ms`, `plan_id` and `created_at`
come from the wall clock and are passed in as parameters. -/
def solve (env : SolveEnv) (config : SolverConfig)
    (constraints : UserConstraints) (solve_time_ms : ℚ)
    (plan_id created_at : String) : SolverOutput :=
  match solve_body env constraints config.prefer_variety with
  | (iterations, .error e) =>
    { success := false
      plan := none
      infeasibility_reason := some e
      relaxation_suggestions := relaxation_suggestions_fixed
      solve_time_ms := solve_time_ms
      iterations := iterations }
  | (iterations, .ok days) =>
    let weekly_totals :=
      days.foldl (fun acc day => acc.add day.daily_totals) Macros.zero
    let weekly_averages :=
      if days ≠ [] then weekly_totals.scale (1 / (days.length : ℚ))
      else Macros.zero
    let validated := validate_plan days constraints
    let plan : MealPlan :=
      { id := plan_id
        created_at := created_at
        constraints := constraints
        days := days
        weekly_totals := weekly_totals
        weekly_averages := weekly_averages
        is_valid := validated.1
        validation_errors := validated.2 }
    { success := true
      plan := some plan
      infeasibility_reason := none
      relaxation_suggestions := []
      solve_time_ms := solve_time_ms
      iterations := iterations }

/-! Source strategy (`data_access.py`). -/

/-- SourceStrategy (`data_access.SourceStrategy`): selection weights per
data source. -/
structure SourceStrategy where
  gustar : ℚ
  ciqual : ℚ
  off : ℚ
deriving DecidableEq, Repr

/-- data_access.determine_source_strategy: static weight table keyed by
the user preference and whether the slot is a simple meal
(breakfast/snack) — a missing meal type falls through to the main-meal
row of each preference. -/
def determine_source_strategy (preference : MealSourcePreference)
    (meal_type : Option MealType := none) : SourceStrategy :=
  let is_simple_meal :=
    meal_type = some MealType.BREAKFAST ∨ meal_type = some MealType.SNACK
  if preference = .FRESH then
    if is_simple_meal then
      { gustar := 0, ciqual := 90/100, off := 10/100 }
    else { gustar := 20/100, ciqual := 70/100, off := 10/100 }
  else if preference = .RECIPES then
    if is_simple_meal then
      { gustar := 10/100, ciqual := 80/100, off := 10/100 }
    else { gustar := 70/100, ciqual := 20/100, off := 10/100 }
  else if preference = .QUICK then
    if is_simple_meal then
      { gustar := 10/100, ciqual := 30/100, off := 60/100 }
    else { gustar := 30/100, ciqual := 30/100, off := 40/100 }
  else
    if is_simple_meal then
      { gustar := 10/100, ciqual := 70/100, off := 20/100 }
    else { gustar := 40/100, ciqual := 45/100, off := 15/100 }

/-- Python `int()` applied to a nonnegative-or-negative rational:
truncation toward zero. -/
def py_int (q : ℚ) : ℤ := if 0 ≤ q then ⌊q⌋ else -⌊-q⌋

/-- The per-source candidate limits computed in
`UnifiedFoodDataAccess.get_foods_for_meal` from the strategy weights and
the fixed per-role budget `total_per_role = 15`. -/
def source_limits (preference : MealSourcePreference)
    (meal_type : Option MealType) : ℤ × ℤ × ℤ :=
  let strategy := determine_source_strategy preference meal_type
  let total_per_role : ℚ := 15
  (max 1 (py_int (total_per_role * strategy.ciqual)),
   max 0 (py_int (total_per_role * strategy.gustar)),
   max 0 (py_int (total_per_role * strategy.off)))

/-! Validator (`validation.py`). -/

/-- ValidationError (`validation.ValidationError`). -/
structure VError where
  severity : String
  code : String
  message : String
  day : Option ℕ := none
  meal_type : Option String := none
  food_id : Option String := none
deriving DecidableEq, Repr

/-- ValidationResult (`validation.ValidationResult`). -/
structure VResult where
  is_valid : Bool
  errors : List VError := []
  warnings : List VError := []
  total_calorie_deviation_pct : ℚ := 0
  max_daily_deviation_pct : ℚ := 0
  allergen_violations : ℕ := 0
  diet_violations : ℕ := 0
deriving DecidableEq, Repr

/-- Python `name.lower()` (character-wise lowering; the embedded keyword
lists are already lowercase). -/
def py_lower (s : String) : String := String.mk (s.data.map Char.toLower)

/-- Check whether `needle` occurs as a contiguous substring of `hay`
(Python `needle in hay` on strings), on character lists. -/
def list_contains_sub (needle : List Char) : List Char → Bool
  | [] => needle.isEmpty
  | hay@(_ :: rest) => needle.isPrefixOf hay || list_contains_sub needle rest

/-- Python `kw in name_lower` on strings. -/
def str_has_sub (hay needle : String) : Bool :=
  list_contains_sub needle.toList hay.toList

/-- MealPlanValidator._recalculate_meal_macros: re-fetch each component's
food through `get_by_id` and rescale its authoritative per-100g profile;
fall back to the stored computed macros when the food cannot be
resolved. -/
def recalculate_meal_macros (get_by_id : String → Option FoodItem)
    (meal : ComposedMeal) : Macros :=
  meal.components.foldl (fun total component =>
    match get_by_id component.food_id with
    | some food =>
      total.add (food.macros_per_100g.scale (component.grams / 100))
    | none => total.add component.computed_macros) Macros.zero

/-- MealPlanValidator._recalculate_daily_macros. -/
def recalculate_daily_macros (get_by_id : String → Option FoodItem)
    (day_plan : DailyPlan) : Macros :=
  day_plan.meals.foldl (fun total planned_meal =>
    total.add (recalculate_meal_macros get_by_id planned_meal.meal))
    Macros.zero

/-- MealPlanValidator._check_macro_consistency: warnings (never errors)
when the reported daily totals drift more than 1% from the recalculated
ones. -/
def check_macro_consistency (day_plan : DailyPlan) (recalculated : Macros) :
    List VError :=
  let reported := day_plan.daily_totals
  let tolerance : ℚ := 1/100
  (if reported.calories > 0 ∧
      |reported.calories - recalculated.calories| / reported.calories >
        tolerance then
    [{ severity := "warning", code := "MACRO_MISMATCH_CALORIES",
       message := "ecart de recalcul calories", day := some day_plan.day }]
  else []) ++
  (if reported.proteins > 0 ∧
      |reported.proteins - recalculated.proteins| / reported.proteins >
        tolerance then
    [{ severity := "warning", code := "MACRO_MISMATCH_PROTEINS",
       message := "ecart de recalcul proteines", day := some day_plan.day }]
  else [])

/-- MealPlanValidator._check_calorie_tolerance: returns the error list,
the warning list and the deviation percentage for one day. -/
def check_calorie_tolerance (day_plan : DailyPlan)
    (constraints : UserConstraints) : List VError × List VError × ℚ :=
  let target := constraints.daily_target.calories
  let actual := day_plan.daily_totals.calories
  let tolerance := constraints.daily_target.calorie_tolerance_pct
  if target ≤ 0 then ([], [], 0)
  else
    let deviation_pct := (actual - target) / target * 100
    if |deviation_pct| > tolerance then
      ([{ severity := "error", code := "CALORIE_OUT_OF_TOLERANCE",
          message := "hors tolerance calorique", day := some day_plan.day }],
       [], deviation_pct)
    else if |deviation_pct| > tolerance * (8/10) then
      ([],
       [{ severity := "warning", code := "CALORIE_NEAR_LIMIT",
          message := "proche de la limite", day := some day_plan.day }],
       deviation_pct)
    else ([], [], deviation_pct)

/-- The static per-allergen keyword table of
MealPlanValidator._check_allergens (`allergen_keywords.get(a, [])` gives
an empty list for SULFITES). -/
def allergen_keywords : Allergen → List String
  | .GLUTEN => ["blé", "pain", "pâtes", "farine", "seigle"]
  | .DAIRY => ["lait", "fromage", "yaourt", "crème", "beurre"]
  | .EGGS => ["œuf", "oeuf"]
  | .NUTS => ["noix", "amande", "noisette", "cajou"]
  | .PEANUTS => ["arachide", "cacahuète"]
  | .SOY => ["soja"]
  | .FISH => ["poisson", "saumon", "thon", "cabillaud"]
  | .SHELLFISH => ["crevette", "crabe", "homard", "moule"]
  | .SESAME => ["sésame"]
  | .SULFITES => []

/-- The forbidden-allergen set `set(allergies + intolerances)`, embedded
as a duplicate-free list. -/
def forbidden_allergens (constraints : UserConstraints) : List Allergen :=
  (constraints.allergies ++ constraints.intolerances).dedup

/-- Display string of a MealType (its Python enum `.value`). -/
def MealType.value : MealType → String
  | .BREAKFAST => "breakfast"
  | .LUNCH => "lunch"
  | .SNACK => "snack"
  | .DINNER => "dinner"

/-- MealPlanValidator._check_allergens: keyword scan of every component
name against the forbidden allergens; one error per match. -/
def check_allergens (day_plan : DailyPlan) (constraints : UserConstraints) :
    List VError :=
  let forbidden := forbidden_allergens constraints
  if forbidden = [] then []
  else
    day_plan.meals.flatMap (fun planned_meal =>
      planned_meal.meal.components.flatMap (fun component =>
        let name_lower := py_lower component.name
        forbidden.filterMap (fun allergen =>
          if (allergen_keywords allergen).any
              (fun kw => str_has_sub name_lower kw) then
            some { severity := "error", code := "ALLERGEN_PRESENT",
                   message := "allergene detecte",
                   day := some day_plan.day,
                   meal_type := some planned_meal.meal.meal_type.value,
                   food_id := some component.food_id }
          else none)))

/-- Meat keywords of MealPlanValidator._check_diet_compliance. -/
def meat_keywords : List String :=
  ["poulet", "bœuf", "porc", "agneau", "veau", "canard", "dinde"]

/-- Fish keywords of MealPlanValidator._check_diet_compliance. -/
def fish_keywords : List String :=
  ["poisson", "saumon", "thon", "cabillaud", "sardine", "maquereau"]

/-- Animal-product keywords of MealPlanValidator._check_diet_compliance. -/
def animal_keywords : List String :=
  meat_keywords ++ fish_keywords ++
  ["œuf", "oeuf", "lait", "fromage", "yaourt", "beurre", "crème"]

/-- MealPlanValidator._check_diet_compliance: keyword scan for the
non-omnivore diets the code distinguishes. -/
def check_diet_compliance (day_plan : DailyPlan)
    (constraints : UserConstraints) : List VError :=
  let diet := constraints.diet_type
  if diet = .OMNIVORE then []
  else
    day_plan.meals.flatMap (fun planned_meal =>
      planned_meal.meal.components.filterMap (fun component =>
        let name_lower := py_lower component.name
        let violation : Option String :=
          if diet = .VEGETARIAN then
            if (meat_keywords ++ fish_keywords).any
                (fun kw => str_has_sub name_lower kw) then
              some "viande/poisson"
            else none
          else if diet = .VEGAN then
            if animal_keywords.any (fun kw => str_has_sub name_lower kw) then
              some "produit animal"
            else none
          else if diet = .PESCATARIAN then
            if meat_keywords.any (fun kw => str_has_sub name_lower kw) then
              some "viande"
            else none
          else none
        violation.map (fun v =>
          { severity := "error", code := "DIET_VIOLATION", message := v,
            day := some day_plan.day,
            meal_type := some planned_meal.meal.meal_type.value,
            food_id := some component.food_id })))

/-- Errors a single day contributes in MealPlanValidator.validate, in the
order the checks run (calorie tolerance, allergens, diet compliance; the
macro-consistency check emits only warnings). -/
def day_errors (day_plan : DailyPlan)
    (constraints : UserConstraints) : List VError :=
  (check_calorie_tolerance day_plan constraints).1 ++
  check_allergens day_plan constraints ++
  check_diet_compliance day_plan constraints

/-- Warnings a single day contributes in MealPlanValidator.validate
(macro-consistency drift, then a possible near-limit calorie warning). -/
def day_warnings (get_by_id : String → Option FoodItem)
    (day_plan : DailyPlan) (constraints : UserConstraints) : List VError :=
  check_macro_consistency day_plan
    (recalculate_daily_macros get_by_id day_plan) ++
  (check_calorie_tolerance day_plan constraints).2.1

/-- MealPlanValidator.validate: full second pass over a MealPlan.
`is_valid` starts true and is cleared by the first `add_error`, so it
ends up true exactly when no day emits an error. -/
def validate (get_by_id : String → Option FoodItem) (plan : MealPlan) :
    VResult :=
  let constraints := plan.constraints
  let errors :=
    plan.days.flatMap (fun d => day_errors d constraints)
  let warnings :=
    plan.days.flatMap (fun d => day_warnings get_by_id d constraints)
  let deviations := plan.days.map (fun d =>
    |(check_calorie_tolerance d constraints).2.2|)
  let total_deviation := deviations.sum
  let max_deviation := deviations.foldl max 0
  let num_days := plan.days.length
  { is_valid := errors.isEmpty
    errors := errors
    warnings := warnings
    total_calorie_deviation_pct :=
      if 0 < num_days then total_deviation / num_days else 0
    max_daily_deviation_pct := if 0 < num_days then max_deviation else 0
    allergen_violations :=
      (errors.filter (fun e => e.code = "ALLERGEN_PRESENT")).length
    diet_violations :=
      (errors.filter (fun e => e.code = "DIET_VIOLATION")).length }

/-! Spec-side restatements used for refinement claims. -/

/-- Slot class of the spec's Source Strategy Selector: breakfast/snack are
simple meals, everything else (including an absent meal type) is treated
as a main meal. -/
def spec_is_simple (meal_type : Option MealType) : Bool :=
  meal_type = some MealType.BREAKFAST || meal_type = some MealType.SNACK

/-- Static weight table of the spec's Source Strategy Selector, in the
spec's (reference-db, recipe, packaged-goods) order, keyed by preference
and slot class. -/
def spec_strategy_table (preference : MealSourcePreference) (simple : Bool) :
    ℚ × ℚ × ℚ :=
  match preference, simple with
  | .FRESH, true => (90/100, 0, 10/100)
  | .FRESH, false => (70/100, 20/100, 10/100)
  | .RECIPES, true => (80/100, 10/100, 10/100)
  | .RECIPES, false => (20/100, 70/100, 10/100)
  | .QUICK, true => (30/100, 10/100, 60/100)
  | .QUICK, false => (30/100, 30/100, 40/100)
  | .BALANCED, true => (70/100, 10/100, 20/100)
  | .BALANCED, false => (45/100, 40/100, 15/100)

/-- Per-source request limits in the spec's words: each weight times the
fixed budget of 15, floored to an integer, clamped to ≥ 0 for the recipe
and packaged sources and to ≥ 1 for the reference source. -/
def spec_limits (preference : MealSourcePreference)
    (meal_type : Option MealType) : ℤ × ℤ × ℤ :=
  let w := spec_strategy_table preference (spec_is_simple meal_type)
  (max 1 ⌊w.1 * 15⌋, max 0 ⌊w.2.1 * 15⌋, max 0 ⌊w.2.2 * 15⌋)

/-! Concrete sample data for witnesses and counterexamples. -/

/-- A sample carb food (200 kcal / 100 g, default portion bounds). -/
def food_riz : FoodItem :=
  { id := "ciqual_riz", source := .CIQUAL, name := "riz",
    macros_per_100g := { calories := 200, proteins := 5, carbs := 40,
                         fats := 2 },
    role := .CARB }

/-- A sample component worth 100 kcal. -/
def comp_a : MealComponent :=
  { food_id := "ciqual_riz", source := .CIQUAL, name := "riz", grams := 50,
    computed_macros := { calories := 100, proteins := 2, carbs := 20,
                         fats := 1 },
    role := .CARB }

/-- A sample component worth 50 kcal. -/
def comp_b : MealComponent :=
  { food_id := "ciqual_pomme", source := .CIQUAL, name := "pomme",
    grams := 100,
    computed_macros := { calories := 50, proteins := 0, carbs := 12,
                         fats := 0 },
    role := .FRUIT }

/-- A lunch-slot meal target used by the composer samples. -/
def targets_dej : MealTargets :=
  { meal_type := .LUNCH, target_calories := 600 }

/-- Candidate environment offering one carb food and nothing else. -/
def env_riz : FoodRole → List FoodItem :=
  fun role => if role = .CARB then [food_riz] else []

/-- A salmon component, used to exercise the allergen keyword scan. -/
def comp_saumon : MealComponent :=
  { food_id := "ciqual_saumon", source := .CIQUAL, name := "saumon",
    grams := 150,
    computed_macros := { calories := 2000, proteins := 30, carbs := 0,
                         fats := 20 },
    role := .PROTEIN }

/-- The day containing the salmon meal, hitting 2000 kcal exactly. -/
def day_saumon : DailyPlan :=
  { day := 0,
    meals := [{ day := 0,
                meal := { meal_type := .LUNCH,
                          components := [comp_saumon],
                          target_macros :=
                            { calories := 2000, proteins := 0,
                              carbs := 0, fats := 0 } } }],
    daily_totals := { calories := 2000, proteins := 30,
                      carbs := 0, fats := 20 } }

/-- A one-day plan hitting its 2000 kcal target exactly, but containing a
salmon component while the constraints forbid fish. -/
def plan_saumon : MealPlan :=
  { id := "plan_1", created_at := "2026-01-01T00:00:00Z",
    constraints := { daily_target := { calories := 2000 },
                     allergies := [.FISH] },
    days := [day_saumon],
    weekly_totals := { calories := 2000, proteins := 30, carbs := 0,
                       fats := 20 },
    weekly_averages := { calories := 2000, proteins := 30, carbs := 0,
                         fats := 20 },
    is_valid := true }

/-- The day containing the neutral rice meal, hitting 2000 kcal exactly. -/
def day_riz : DailyPlan :=
  { day := 0,
    meals := [{ day := 0,
                meal := { meal_type := .LUNCH,
                          components := [comp_a],
                          target_macros :=
                            { calories := 2000, proteins := 0,
                              carbs := 0, fats := 0 } } }],
    daily_totals := { calories := 2000, proteins := 2,
                      carbs := 20, fats := 1 } }

/-- A one-day plan hitting its 2000 kcal target exactly with a neutral
component and no dietary restrictions. -/
def plan_riz : MealPlan :=
  { id := "plan_2", created_at := "2026-01-01T00:00:00Z",
    constraints := { daily_target := { calories := 2000 } },
    days := [day_riz],
    weekly_totals := { calories := 2000, proteins := 2, carbs := 20,
                       fats := 1 },
    weekly_averages := { calories := 2000, proteins := 2, carbs := 20,
                         fats := 1 },
    is_valid := true }

/-- A day whose totals are 50% above a 2000 kcal target. -/
def day_3000 : DailyPlan :=
  { day := 0, meals := [],
    daily_totals := { calories := 3000, proteins := 0, carbs := 0,
                      fats := 0 } }

/-- A day whose totals deviate by 4.5% from a 2000 kcal target (between
80% of the 5% tolerance and the tolerance itself). -/
def day_2090 : DailyPlan :=
  { day := 0, meals := [],
    daily_totals := { calories := 2090, proteins := 0, carbs := 0,
                      fats := 0 } }

/-- Constraints with a 2000 kcal daily target and the default 5%
tolerance. -/
def constraints_2000 : UserConstraints :=
  { daily_target := { calories := 2000 } }


/-- Sample macros with a present nonzero fiber field. -/
def mm1 : Macros :=
  { calories := 1, proteins := 2, carbs := 3, fats := 4, fiber := some 1 }

/-- Sample macros with absent optional fields. -/
def mm2 : Macros := { calories := 5, proteins := 6, carbs := 7, fats := 8 }

/-- Sample macros with a present nonzero fiber field. -/
def mm3 : Macros :=
  { calories := 9, proteins := 10, carbs := 11, fats := 12,
    fiber := some 2 }

def nt_zero_prot : NutritionTarget := { calories := 2000, proteins := some 0 }

def uc_zero_prot : UserConstraints := { daily_target := nt_zero_prot }

def nt_75 : NutritionTarget := { calories := 2000, proteins := some 75 }

/-- A data-access oracle that always raises. -/
def env_err : SolveEnv := fun _ _ => .error "boom"


/-! Theorems. -/

theorem opt_add_comm (a b : Option ℚ) : opt_add a b = opt_add b a := by
  unfold opt_add
  cases a <;> cases b <;> simp [truthy, or_zero, add_comm, Bool.or_comm]

theorem or_zero_opt_add (a b : Option ℚ) :
    or_zero (opt_add a b) = or_zero a + or_zero b := by
  unfold opt_add
  by_cases h : (truthy a || truthy b) = true
  · simp [h, or_zero]
  · have ha : truthy a = false := by
      cases ht : truthy a <;> simp_all
    have hb : truthy b = false := by
      cases ht : truthy b <;> simp_all
    have hva : or_zero a = 0 := by
      cases a with
      | none => rfl
      | some x =>
        simp [truthy] at ha
        simp [or_zero, ha]
    have hvb : or_zero b = 0 := by
      cases b with
      | none => rfl
      | some x =>
        simp [truthy] at hb
        simp [or_zero, hb]
    rw [if_neg h]
    simp only [or_zero] at hva hvb ⊢
    simp [hva, hvb]

theorem truthy_or_zero_ne (a : Option ℚ) (h : truthy a = true) :
    or_zero a ≠ 0 := by
  cases a with
  | none => simp [truthy] at h
  | some x => simp [truthy] at h; simpa [or_zero] using h

theorem or_zero_nonneg (a : Option ℚ) (h : opt_nonneg a) : 0 ≤ or_zero a := by
  cases a with
  | none => simp [or_zero]
  | some x => simpa [or_zero] using h

theorem truthy_opt_add (a b : Option ℚ) (ha : opt_nonneg a)
    (hb : opt_nonneg b) : truthy (opt_add a b) = (truthy a || truthy b) := by
  unfold opt_add
  by_cases h : (truthy a || truthy b) = true
  · rw [if_pos h, h]
    rcases Bool.or_eq_true_iff.mp h with h1 | h1
    · have h2 : or_zero a + or_zero b ≠ 0 := by
        have h3 := or_zero_nonneg b hb
        have h4 := or_zero_nonneg a ha
        intro hz
        exact truthy_or_zero_ne a h1 (by linarith)
      simp [truthy, h2]
    · have h2 : or_zero a + or_zero b ≠ 0 := by
        have h3 := or_zero_nonneg a ha
        have h4 := or_zero_nonneg b hb
        intro hz
        exact truthy_or_zero_ne b h1 (by linarith)
      simp [truthy, h2]
  · have h' : (truthy a || truthy b) = false := by
      cases hh : (truthy a || truthy b) <;> simp_all
    rw [if_neg h]
    exact h'.symm

theorem opt_add_eq (a b : Option ℚ) :
    opt_add a b = if (truthy a || truthy b) = true then
      some (or_zero a + or_zero b) else none := rfl

theorem opt_add_assoc (a b c : Option ℚ) (ha : opt_nonneg a)
    (hb : opt_nonneg b) (hc : opt_nonneg c) :
    opt_add (opt_add a b) c = opt_add a (opt_add b c) := by
  rw [opt_add_eq (opt_add a b) c, opt_add_eq a (opt_add b c),
    truthy_opt_add a b ha hb, truthy_opt_add b c hb hc,
    or_zero_opt_add a b, or_zero_opt_add b c, Bool.or_assoc, add_assoc]

theorem macros_add_comm_lemma (a b : Macros) : a.add b = b.add a := by
  simp only [Macros.add, Macros.mk.injEq]
  refine ⟨by ring, by ring, by ring, by ring, ?_, ?_, ?_, ?_⟩ <;>
    apply opt_add_comm

theorem macros_add_assoc_lemma (a b c : Macros) (ha : a.valid) (hb : b.valid)
    (hc : c.valid) : (a.add b).add c = a.add (b.add c) := by
  obtain ⟨-, -, -, -, ha5, ha6, ha7, ha8⟩ := ha
  obtain ⟨-, -, -, -, hb5, hb6, hb7, hb8⟩ := hb
  obtain ⟨-, -, -, -, hc5, hc6, hc7, hc8⟩ := hc
  simp only [Macros.add, Macros.mk.injEq]
  exact ⟨by ring, by ring, by ring, by ring,
    opt_add_assoc _ _ _ ha5 hb5 hc5, opt_add_assoc _ _ _ ha6 hb6 hc6,
    opt_add_assoc _ _ _ ha7 hb7 hc7, opt_add_assoc _ _ _ ha8 hb8 hc8⟩

theorem opt_scale_one (o : Option ℚ) (h : o ≠ some 0) : opt_scale o 1 = o := by
  cases o with
  | none => rfl
  | some x =>
    have hx : x ≠ 0 := fun hx0 => h (by rw [hx0])
    simp [opt_scale, truthy, or_zero, hx]

theorem opt_scale_zero (o : Option ℚ) :
    opt_scale o 0 = if truthy o then some 0 else none := by
  cases o with
  | none => rfl
  | some x => by_cases hx : x = 0 <;> simp [opt_scale, truthy, or_zero, hx]

/-- Claim C9, counterexample. -/
theorem C9_scale_one_not_identity :
    Macros.scale
      { calories := 1, proteins := 2, carbs := 3, fats := 4,
        fiber := some 0 } 1 ≠
    { calories := 1, proteins := 2, carbs := 3, fats := 4,
      fiber := some 0 } := by
  intro h
  have h2 := congrArg Macros.fiber h
  simp [Macros.scale, opt_scale, truthy] at h2

/-- Claim C9, amended. -/
theorem C9_macros_algebra :
    (∀ a b : Macros, a.add b = b.add a) ∧
    (∀ a b c : Macros, a.valid → b.valid → c.valid →
      (a.add b).add c = a.add (b.add c)) ∧
    (∀ m : Macros, m.fiber ≠ some 0 → m.sodium ≠ some 0 →
      m.sugar ≠ some 0 → m.saturated_fat ≠ some 0 → m.scale 1 = m) ∧
    (∀ m : Macros, m.scale 0 =
      { calories := 0, proteins := 0, carbs := 0, fats := 0,
        fiber := if truthy m.fiber then some 0 else none,
        sodium := if truthy m.sodium then some 0 else none,
        sugar := if truthy m.sugar then some 0 else none,
        saturated_fat :=
          if truthy m.saturated_fat then some 0 else none }) := by
  refine ⟨macros_add_comm_lemma, macros_add_assoc_lemma, ?_, ?_⟩
  · intro m h1 h2 h3 h4
    cases m
    simp only [Macros.scale, Macros.mk.injEq] at h1 h2 h3 h4 ⊢
    exact ⟨by ring, by ring, by ring, by ring, opt_scale_one _ h1,
      opt_scale_one _ h2, opt_scale_one _ h3, opt_scale_one _ h4⟩
  · intro m
    simp only [Macros.scale, Macros.mk.injEq]
    exact ⟨by ring, by ring, by ring, by ring, opt_scale_zero _,
      opt_scale_zero _, opt_scale_zero _, opt_scale_zero _⟩

/-- Claim C9, witness. -/
theorem C9_macros_algebra_witness :
    ((mm1.add mm2).add mm3 = mm1.add (mm2.add mm3)) ∧
    mm1.scale 1 = mm1 :=
  ⟨C9_macros_algebra.2.1 mm1 mm2 mm3 (by decide) (by decide) (by decide),
   C9_macros_algebra.2.2.1 mm1 (by decide) (by decide) (by decide)
     (by decide)⟩

/-- Claim C4: a MealDistribution whose percentages sum more than 0.1 away
from 100 fails to construct, and every successfully constructed
MealDistribution has percentages summing to 100 within 0.1. -/
theorem C4_meal_distribution_invariant :
    (∀ b l s d : ℚ, |b + l + s + d - 100| > 1/10 →
      ∃ e, mkMealDistribution b l s d = .error e) ∧
    (∀ b l s d : ℚ, ∀ md : MealDistribution,
      mkMealDistribution b l s d = .ok md →
      |md.breakfast_pct + md.lunch_pct + md.snack_pct + md.dinner_pct
        - 100| ≤ 1/10) := by
  constructor
  · intro b l s d h
    simp only [mkMealDistribution]
    split_ifs with h1
    · exact ⟨_, rfl⟩
    · exact ⟨_, rfl⟩
  · intro b l s d md h
    simp only [mkMealDistribution] at h
    split_ifs at h with h1 h2
    injection h with h3
    rw [← h3]
    exact not_lt.mp h2

/-- Claim C4, witness. -/
theorem C4_meal_distribution_invariant_witness :
    (∃ e, mkMealDistribution 25 25 25 35 = .error e) ∧
    |(25:ℚ) + 35 + 10 + 30 - 100| ≤ 1/10 :=
  ⟨C4_meal_distribution_invariant.1 25 25 25 35 (by norm_num),
   C4_meal_distribution_invariant.2 25 35 10 30
     { breakfast_pct := 25, lunch_pct := 35, snack_pct := 10,
       dinner_pct := 30 } (by norm_num [mkMealDistribution])⟩

/-- Claim C6: grams_for_calories fails closed to 0 when per-100g calories
are ≤ 0, and otherwise computes target/caloriesPer100g*100, clamped below
by min_grams and above by max_grams when supplied, rounded to one
decimal. -/
theorem C6_grams_for_calories_spec (food : FoodItem) (target : ℚ)
    (mn mx : Option ℚ) :
    (food.macros_per_100g.calories ≤ 0 →
      calculate_grams_for_calories food target mn mx = 0) ∧
    (0 < food.macros_per_100g.calories → ∀ lo hi : ℚ,
      calculate_grams_for_calories food target (some lo) (some hi) =
        py_round1
          (min (max (target / food.macros_per_100g.calories * 100) lo)
            hi)) ∧
    (0 < food.macros_per_100g.calories →
      calculate_grams_for_calories food target none none =
        py_round1 (target / food.macros_per_100g.calories * 100)) ∧
    (0 < food.macros_per_100g.calories → ∀ lo hi : ℚ, lo ≤ hi →
      lo ≤ min (max (target / food.macros_per_100g.calories * 100) lo) hi ∧
      min (max (target / food.macros_per_100g.calories * 100) lo) hi ≤ hi) := by
  refine ⟨?_, ?_, ?_, ?_⟩
  · intro h
    simp only [calculate_grams_for_calories, if_pos h]
  · intro h lo hi
    simp only [calculate_grams_for_calories, if_neg (not_le.mpr h)]
  · intro h
    simp only [calculate_grams_for_calories, if_neg (not_le.mpr h)]
  · intro h lo hi hlh
    exact ⟨le_min (le_max_right _ _) hlh, min_le_right _ _⟩

/-- Claim C6, witness. -/
theorem C6_grams_for_calories_spec_witness :
    calculate_grams_for_calories food_riz 100 (some 10) (some 500) =
      py_round1 (min (max ((100:ℚ) / 200 * 100) 10) 500) ∧
    (10:ℚ) ≤ min (max ((100:ℚ) / 200 * 100) 10) 500 ∧
    min (max ((100:ℚ) / 200 * 100) 10) 500 ≤ 500 :=
  ⟨(C6_grams_for_calories_spec food_riz 100 none none).2.1 (by norm_num [food_riz]) 10 500,
   (C6_grams_for_calories_spec food_riz 100 none none).2.2.2 (by norm_num [food_riz]) 10 500
     (by norm_num)⟩

/-- Claim C8: the source strategy is a total function given by the static
weight table (fresh+simple and balanced+main rows as cited), and the
per-source candidate limits are the weights times the budget of 15,
floored, clamped to ≥1 for the reference (CIQUAL) source and ≥0 for the
recipe (Gustar) and packaged (OFF) sources. -/
theorem C8_source_strategy_spec :
    determine_source_strategy .FRESH (some .BREAKFAST) =
      { gustar := 0, ciqual := 90/100, off := 10/100 } ∧
    determine_source_strategy .BALANCED (some .LUNCH) =
      { gustar := 40/100, ciqual := 45/100, off := 15/100 } ∧
    (∀ (p : MealSourcePreference) (mt : Option MealType),
      ((determine_source_strategy p mt).ciqual,
       (determine_source_strategy p mt).gustar,
       (determine_source_strategy p mt).off) =
        spec_strategy_table p (spec_is_simple mt)) ∧
    (∀ (p : MealSourcePreference) (mt : Option MealType),
      source_limits p mt = spec_limits p mt) ∧
    (∀ (p : MealSourcePreference) (mt : Option MealType),
      1 ≤ (source_limits p mt).1 ∧ 0 ≤ (source_limits p mt).2.1 ∧
      0 ≤ (source_limits p mt).2.2) := by
  refine ⟨?_, ?_, ?_, ?_, ?_⟩
  · rfl
  · rfl
  · intro p mt
    rcases mt with _ | m
    · cases p <;> rfl
    · cases p <;> cases m <;> rfl
  · intro p mt
    rcases mt with _ | m
    · cases p <;>
        norm_num +decide [source_limits, spec_limits,
          determine_source_strategy, spec_strategy_table, spec_is_simple,
          py_int]
    · cases p <;> cases m <;>
        norm_num +decide [source_limits, spec_limits,
          determine_source_strategy, spec_strategy_table, spec_is_simple,
          py_int]
  · intro p mt
    rcases mt with _ | m
    · cases p <;>
        norm_num +decide [source_limits, determine_source_strategy, py_int]
    · cases p <;> cases m <;>
        norm_num +decide [source_limits, determine_source_strategy, py_int]

theorem foldl_add_calories (comps : List MealComponent) (init : Macros) :
    (comps.foldl (fun r c => r.add c.computed_macros) init).calories =
      init.calories + (comps.map (·.computed_macros.calories)).sum := by
  induction comps generalizing init with
  | nil => simp
  | cons hd tl ih =>
    simp only [List.foldl_cons, List.map_cons, List.sum_cons]
    rw [ih]
    show (init.add hd.computed_macros).calories + _ = _
    simp only [Macros.add]
    ring

theorem actual_macros_of_calories (comps : List MealComponent) :
    (ComposedMeal.actual_macros_of comps).calories =
      (comps.map (·.computed_macros.calories)).sum := by
  unfold ComposedMeal.actual_macros_of
  rw [foldl_add_calories]
  simp [Macros.zero]

theorem adjust_quantities_calories (comps : List MealComponent)
    (target : ℚ) (h1 : comps ≠ [])
    (h2 : ¬(comps.map (·.computed_macros.calories)).sum ≤ 0) :
    (adjust_quantities comps target).map (·.computed_macros.calories) =
      comps.map (fun c => c.computed_macros.calories *
        (target / (comps.map (·.computed_macros.calories)).sum)) := by
  simp only [adjust_quantities, if_neg h1, if_neg h2, List.map_map]
  rfl

/-- Claim C1: after the rescale pass, the meal's actual calories match the
target calories to within 0.1 kcal, for any component list with at least
one component and a positive pre-rescale calorie total. -/
theorem C1_rescale_exact (comps : List MealComponent) (target : ℚ)
    (h1 : comps ≠ [])
    (h2 : 0 < (comps.map (·.computed_macros.calories)).sum) :
    |(ComposedMeal.actual_macros_of
        (adjust_quantities comps target)).calories - target| ≤ 1/10 := by
  have key : (ComposedMeal.actual_macros_of
      (adjust_quantities comps target)).calories = target := by
    rw [actual_macros_of_calories,
      adjust_quantities_calories comps target h1 (not_le.mpr h2),
      List.sum_map_mul_right, ← mul_div_assoc,
      mul_div_cancel_left₀ _ (ne_of_gt h2)]
  rw [key]
  norm_num

/-- Claim C1, witness. -/
theorem C1_rescale_exact_witness :
    |(ComposedMeal.actual_macros_of
        (adjust_quantities [comp_a, comp_b] 300)).calories - 300| ≤ 1/10 :=
  C1_rescale_exact [comp_a, comp_b] 300 (by simp)
    (by norm_num [comp_a, comp_b])

theorem compose_step_cases (env : FoodRole → List FoodItem)
    (dist : FoodRole → ℚ) (acc : List MealComponent × Finset String)
    (role : FoodRole) :
    compose_step env dist acc role = acc ∨
    ∃ comp : MealComponent,
      compose_step env dist acc role =
        (acc.1 ++ [comp], insert comp.food_id acc.2) := by
  by_cases hc : env role = []
  · left; simp [compose_step, hc]
  · cases hs : select_food (env role) acc.2 with
    | none => left; simp [compose_step, hc, hs]
    | some food =>
      by_cases hg : calculate_grams_for_calories food (dist role)
          (some food.min_portion_g) (some food.max_portion_g) ≤ 0
      · left; simp [compose_step, hc, hs, hg]
      · right
        refine ⟨⟨food.id, food.source, food.name, food.name_fr,
          calculate_grams_for_calories food (dist role)
            (some food.min_portion_g) (some food.max_portion_g), none,
          compute_macros_for_grams food
            (calculate_grams_for_calories food (dist role)
              (some food.min_portion_g) (some food.max_portion_g)),
          role, food.image_url⟩, ?_⟩
        simp [compose_step, hc, hs, hg]

theorem compose_fold_used (env : FoodRole → List FoodItem)
    (dist : FoodRole → ℚ) :
    ∀ (roles : List FoodRole) (cs : List MealComponent)
      (u used : Finset String),
    u = used ∪ (cs.map (·.food_id)).toFinset →
    (roles.foldl (compose_step env dist) (cs, u)).2 =
      used ∪
        ((roles.foldl (compose_step env dist) (cs, u)).1.map
          (·.food_id)).toFinset := by
  intro roles
  induction roles with
  | nil => intro cs u used h; simpa using h
  | cons hd tl ih =>
    intro cs u used h
    simp only [List.foldl_cons]
    rcases compose_step_cases env dist (cs, u) hd with heq | ⟨comp, heq⟩
    · rw [heq]; exact ih cs u used h
    · rw [heq]
      apply ih
      rw [h]
      ext x
      simp only [Finset.mem_insert, Finset.mem_union, List.mem_toFinset,
        List.mem_map, List.mem_append, List.mem_singleton]
      constructor
      · rintro (h1 | h1 | ⟨a, ha, rfl⟩)
        · exact Or.inr ⟨comp, Or.inr rfl, h1.symm⟩
        · exact Or.inl h1
        · exact Or.inr ⟨a, Or.inl ha, rfl⟩
      · rintro (h1 | ⟨a, ha | ha, rfl⟩)
        · exact Or.inr (Or.inl h1)
        · exact Or.inr (Or.inr ⟨a, ha, rfl⟩)
        · rw [ha]; exact Or.inl rfl

theorem adjust_quantities_ids (comps : List MealComponent) (target : ℚ) :
    (adjust_quantities comps target).map (·.food_id) =
      comps.map (·.food_id) := by
  by_cases h1 : comps = []
  · simp [adjust_quantities, h1]
  · by_cases h2 : (comps.map (·.computed_macros.calories)).sum ≤ 0
    · simp only [adjust_quantities, if_neg h1, if_pos h2]
    · simp only [adjust_quantities, if_neg h1, if_neg h2, List.map_map]
      rfl

/-- Claim C10: compose_meal extends the caller-supplied used-foods set by
exactly the ids of the components it built (nothing is removed), and a
`None` argument makes it use a fresh internal set, leaving the caller
nothing to observe. -/
theorem C10_compose_meal_used_foods (env : FoodRole → List FoodItem)
    (targets : MealTargets) (used : Finset String) :
    used ⊆ (compose_meal env targets used).2 ∧
    (compose_meal env targets used).2 =
      used ∪
        (match (compose_meal env targets used).1 with
         | .ok meal => (meal.components.map (·.food_id)).toFinset
         | .error _ => ∅) ∧
    compose_meal_opt env targets none =
      ((compose_meal env targets ∅).1, none) := by
  have hinv := compose_fold_used env
    (distribute_calories_by_roles targets.target_calories
      (get_roles_for_meal_type targets.meal_type))
    (get_roles_for_meal_type targets.meal_type) [] used used (by simp)
  set F := (get_roles_for_meal_type targets.meal_type).foldl
    (compose_step env
      (distribute_calories_by_roles targets.target_calories
        (get_roles_for_meal_type targets.meal_type))) ([], used) with hF
  have hsnd : (compose_meal env targets used).2 = F.2 := rfl
  refine ⟨?_, ?_, rfl⟩
  · rw [hsnd, hinv]
    exact Finset.subset_union_left
  · rw [hsnd, hinv]
    congr 1
    by_cases hb : F.1 = []
    · have herr : (compose_meal env targets used).1 = .error
          "ValidationError: components: List should have at least 1 item" := by
        show mkComposedMeal _ (adjust_quantities F.1 _) _ = _
        rw [hb]
        rfl
      rw [herr, hb]
      simp
    · have hlen : adjust_quantities F.1 targets.target_calories ≠ [] := by
        intro hcon
        apply hb
        have hids := adjust_quantities_ids F.1 targets.target_calories
        rw [hcon] at hids
        simpa using List.map_eq_nil_iff.mp hids.symm
      have hpos : ¬ ((adjust_quantities F.1
          targets.target_calories).length < 1) := by
        have := List.length_pos.mpr hlen
        omega
      have hok : (compose_meal env targets used).1 =
          .ok { meal_type := targets.meal_type,
                components :=
                  adjust_quantities F.1 targets.target_calories,
                target_macros :=
                  { calories := targets.target_calories,
                    proteins := or_zero targets.target_proteins,
                    carbs := or_zero targets.target_carbs,
                    fats := or_zero targets.target_fats } } := by
        show mkComposedMeal _ (adjust_quantities F.1 _) _ = _
        unfold mkComposedMeal
        rw [if_neg hpos]
      rw [hok]
      show (F.1.map (·.food_id)).toFinset =
        ((adjust_quantities F.1
          targets.target_calories).map (·.food_id)).toFinset
      rw [adjust_quantities_ids]

/-- Claim C2, counterexample: with no usable candidate for any role,
compose_meal does not return a ComposedMeal with empty components — the
pydantic constructor raises a validation error instead. -/
theorem C2_compose_meal_empty_counterexample :
    (compose_meal (fun _ => []) targets_dej ∅).1 =
      .error "ValidationError: components: List should have at least 1 item" := rfl

/-- Claim C2, amended: when no role yields any usable candidate, the
`ComposedMeal(...)` construction at the end of compose_meal fails its
`min_length=1` validation (an exception, caught only at the solve
boundary); the used-foods set is left unchanged. -/
theorem C2_no_candidates_raises (env : FoodRole → List FoodItem)
    (targets : MealTargets) (used : Finset String)
    (h : ∀ role, env role = []) :
    (compose_meal env targets used).1 =
      .error "ValidationError: components: List should have at least 1 item" ∧
    (compose_meal env targets used).2 = used := by
  have hstep : ∀ (acc : List MealComponent × Finset String) (role : FoodRole),
      compose_step env
        (distribute_calories_by_roles targets.target_calories
          (get_roles_for_meal_type targets.meal_type)) acc role = acc := by
    intro acc role
    simp [compose_step, h role]
  have hfold : ∀ (roles : List FoodRole)
      (acc : List MealComponent × Finset String),
      roles.foldl (compose_step env
        (distribute_calories_by_roles targets.target_calories
          (get_roles_for_meal_type targets.meal_type))) acc = acc := by
    intro roles
    induction roles with
    | nil => intro acc; rfl
    | cons hd tl ih =>
      intro acc
      simp only [List.foldl_cons, hstep]
      exact ih acc
  constructor
  · show mkComposedMeal _ (adjust_quantities ((get_roles_for_meal_type
      targets.meal_type).foldl _ ([], used)).1 _) _ = _
    rw [hfold]
    rfl
  · show ((get_roles_for_meal_type targets.meal_type).foldl _
      ([], used)).2 = used
    rw [hfold]

/-- Claim C2, witness. -/
theorem C2_no_candidates_raises_witness :
    (compose_meal (fun _ => []) targets_dej ∅).2 = ∅ :=
  (C2_no_candidates_raises (fun _ => []) targets_dej ∅ (fun _ => rfl)).2

/-- Claim C3: solve never lets an exception of its body escape — the
output always reports solve_time_ms and the iteration count of the body,
and on a body exception the output is a failure value carrying the
exception text, the fixed non-empty relaxation suggestions and no plan. -/
theorem C3_solve_boundary (env : SolveEnv) (config : SolverConfig)
    (constraints : UserConstraints) (t : ℚ) (pid cat : String) :
    (solve env config constraints t pid cat).solve_time_ms = t ∧
    (solve env config constraints t pid cat).iterations =
      (solve_body env constraints config.prefer_variety).1 ∧
    (solve env config constraints t pid cat).success =
      (match (solve_body env constraints config.prefer_variety).2 with
       | .ok _ => true
       | .error _ => false) ∧
    (solve env config constraints t pid cat).infeasibility_reason =
      (match (solve_body env constraints config.prefer_variety).2 with
       | .ok _ => none
       | .error e => some e) ∧
    (solve env config constraints t pid cat).relaxation_suggestions =
      (match (solve_body env constraints config.prefer_variety).2 with
       | .ok _ => []
       | .error _ => relaxation_suggestions_fixed) ∧
    relaxation_suggestions_fixed ≠ [] ∧
    (solve env config constraints t pid cat).plan.isSome =
      (match (solve_body env constraints config.prefer_variety).2 with
       | .ok _ => true
       | .error _ => false) := by
  rcases hres : solve_body env constraints config.prefer_variety with
    ⟨iters, res⟩
  cases res with
  | ok days =>
    simp [solve, hres, relaxation_suggestions_fixed]
  | error e =>
    simp [solve, hres, relaxation_suggestions_fixed]

/-- Claim C7, counterexample: a daily proteins target that is present but
zero is dropped (absent) from every slot target instead of propagating as
the field value times the slot percentage. -/
theorem C7_zero_macro_counterexample :
    nt_zero_prot.proteins = some 0 ∧
    (compute_daily_targets uc_zero_prot).breakfast.proteins = none :=
  ⟨rfl, rfl⟩

/-- Claim C7, amended: slot targets scale the daily calories and every
present nonzero daily macro by pct/100; absent or present-zero macro
fields stay absent; a treat day multiplies each slot's calories by 1.3 and
carries the macro fields over unchanged. -/
theorem C7_nutrition_target_distributor :
    (∀ (d : NutritionTarget) (pct : ℚ),
      (slot_target_of d pct).calories = d.calories * pct / 100 ∧
      (∀ p : ℚ, d.proteins = some p → p ≠ 0 →
        (slot_target_of d pct).proteins = some (p * pct / 100)) ∧
      ((d.proteins = none ∨ d.proteins = some 0) →
        (slot_target_of d pct).proteins = none) ∧
      (∀ p : ℚ, d.carbs = some p → p ≠ 0 →
        (slot_target_of d pct).carbs = some (p * pct / 100)) ∧
      ((d.carbs = none ∨ d.carbs = some 0) →
        (slot_target_of d pct).carbs = none) ∧
      (∀ p : ℚ, d.fats = some p → p ≠ 0 →
        (slot_target_of d pct).fats = some (p * pct / 100)) ∧
      ((d.fats = none ∨ d.fats = some 0) →
        (slot_target_of d pct).fats = none)) ∧
    (∀ c : UserConstraints,
      compute_daily_targets c =
        { breakfast :=
            slot_target_of c.daily_target c.meal_distribution.breakfast_pct,
          lunch :=
            slot_target_of c.daily_target c.meal_distribution.lunch_pct,
          snack :=
            slot_target_of c.daily_target c.meal_distribution.snack_pct,
          dinner :=
            slot_target_of c.daily_target c.meal_distribution.dinner_pct }) ∧
    (∀ s : SlotTarget,
      (cheat_slot s).calories = s.calories * (13/10) ∧
      (cheat_slot s).proteins = s.proteins ∧
      (cheat_slot s).carbs = s.carbs ∧
      (cheat_slot s).fats = s.fats) ∧
    (∀ ts : DailyTargets,
      adjust_for_cheat_day ts =
        { breakfast := cheat_slot ts.breakfast,
          lunch := cheat_slot ts.lunch,
          snack := cheat_slot ts.snack,
          dinner := cheat_slot ts.dinner }) := by
  refine ⟨?_, fun c => rfl, fun s => ⟨rfl, rfl, rfl, rfl⟩, fun ts => rfl⟩
  intro d pct
  refine ⟨rfl, ?_, ?_, ?_, ?_, ?_, ?_⟩
  · intro p hp hne
    simp [slot_target_of, truthy, or_zero, hp, hne]
  · rintro (hp | hp) <;> simp [slot_target_of, truthy, or_zero, hp]
  · intro p hp hne
    simp [slot_target_of, truthy, or_zero, hp, hne]
  · rintro (hp | hp) <;> simp [slot_target_of, truthy, or_zero, hp]
  · intro p hp hne
    simp [slot_target_of, truthy, or_zero, hp, hne]
  · rintro (hp | hp) <;> simp [slot_target_of, truthy, or_zero, hp]

/-- Claim C7, witness. -/
theorem C7_nutrition_target_distributor_witness :
    (slot_target_of nt_75 25).proteins = some (75 * 25 / 100) ∧
    (slot_target_of nt_zero_prot 25).proteins = none :=
  ⟨((C7_nutrition_target_distributor.1 nt_75 25).2.1 75 rfl (by norm_num)),
   ((C7_nutrition_target_distributor.1 nt_zero_prot 25).2.2.1
     (Or.inr rfl))⟩

theorem flatMap_nil_of {α β : Type} (l : List α) (f : α → List β)
    (h : ∀ a ∈ l, f a = []) : l.flatMap f = [] := by
  induction l with
  | nil => rfl
  | cons hd tl ih =>
    simp only [List.flatMap_cons, h hd (List.mem_cons_self hd tl),
      List.nil_append]
    exact ih (fun a ha => h a (List.mem_cons_of_mem hd ha))

theorem dev_abs (a T : ℚ) (hT : 0 < T) :
    |(a - T) / T * 100| = |a - T| * 100 / T := by
  rw [abs_mul, abs_div, abs_of_pos hT, div_mul_eq_mul_div]
  norm_num

theorem dev_gt_iff (a T tol : ℚ) (hT : 0 < T) :
    (|(a - T) / T * 100| > tol) ↔ (tol * T < |a - T| * 100) := by
  rw [dev_abs a T hT, gt_iff_lt, lt_div_iff₀ hT]

theorem check_calorie_in_tolerance (day : DailyPlan) (c : UserConstraints)
    (hT : 0 < c.daily_target.calories)
    (hin : |day.daily_totals.calories - c.daily_target.calories| * 100 ≤
      c.daily_target.calorie_tolerance_pct * c.daily_target.calories) :
    (check_calorie_tolerance day c).1 = [] := by
  simp only [check_calorie_tolerance]
  split_ifs with h0 h1 h2
  · rfl
  · exact absurd ((dev_gt_iff _ _ _ hT).mp h1) (not_lt.mpr hin)
  · rfl
  · rfl

/-- Claim C5, amended: a plan whose days all sit within the calorie
tolerance produces no calorie-tolerance errors, and is fully valid
provided the allergen and diet keyword checks also emit no errors; a day
beyond the tolerance yields exactly the out-of-tolerance error; a day
between 80% of the tolerance and the tolerance yields no error and
exactly the near-limit warning. -/
theorem C5_validator_tolerance :
    (∀ (gbi : String → Option FoodItem) (plan : MealPlan),
      0 < plan.constraints.daily_target.calories →
      (∀ day ∈ plan.days,
        |day.daily_totals.calories -
          plan.constraints.daily_target.calories| * 100 ≤
          plan.constraints.daily_target.calorie_tolerance_pct *
            plan.constraints.daily_target.calories) →
      (∀ day ∈ plan.days, check_allergens day plan.constraints = []) →
      (∀ day ∈ plan.days, check_diet_compliance day plan.constraints = []) →
      (validate gbi plan).is_valid = true ∧
      (validate gbi plan).errors = []) ∧
    (∀ (day : DailyPlan) (c : UserConstraints),
      0 < c.daily_target.calories →
      c.daily_target.calorie_tolerance_pct * c.daily_target.calories <
        |day.daily_totals.calories - c.daily_target.calories| * 100 →
      (check_calorie_tolerance day c).1 =
        [{ severity := "error", code := "CALORIE_OUT_OF_TOLERANCE",
           message := "hors tolerance calorique",
           day := some day.day }] ∧
      (check_calorie_tolerance day c).2.1 = []) ∧
    (∀ (day : DailyPlan) (c : UserConstraints),
      0 < c.daily_target.calories →
      c.daily_target.calorie_tolerance_pct * (8/10) *
        c.daily_target.calories <
        |day.daily_totals.calories - c.daily_target.calories| * 100 →
      |day.daily_totals.calories - c.daily_target.calories| * 100 ≤
        c.daily_target.calorie_tolerance_pct * c.daily_target.calories →
      (check_calorie_tolerance day c).1 = [] ∧
      (check_calorie_tolerance day c).2.1 =
        [{ severity := "warning", code := "CALORIE_NEAR_LIMIT",
           message := "proche de la limite",
           day := some day.day }]) := by
  refine ⟨?_, ?_, ?_⟩
  · intro gbi plan hT hin hall hdiet
    have herr : (validate gbi plan).errors = [] := by
      show plan.days.flatMap (fun d => day_errors d plan.constraints) = []
      apply flatMap_nil_of
      intro day hd
      unfold day_errors
      rw [check_calorie_in_tolerance day plan.constraints hT (hin day hd),
        hall day hd, hdiet day hd]
      rfl
    refine ⟨?_, herr⟩
    show (plan.days.flatMap (fun d => day_errors d plan.constraints)).isEmpty = true
    rw [show plan.days.flatMap (fun d => day_errors d plan.constraints) =
      (validate gbi plan).errors from rfl, herr]
    rfl
  · intro day c hT hgt
    simp only [check_calorie_tolerance]
    split_ifs with h0 h1 h2
    · exact absurd hT (not_lt.mpr h0)
    · exact ⟨rfl, rfl⟩
    · exact absurd ((dev_gt_iff _ _ _ hT).mpr hgt) h1
    · exact absurd ((dev_gt_iff _ _ _ hT).mpr hgt) h1
  · intro day c hT hgt hle
    simp only [check_calorie_tolerance]
    split_ifs with h0 h1 h2
    · exact absurd hT (not_lt.mpr h0)
    · exact absurd ((dev_gt_iff _ _ _ hT).mp h1) (not_lt.mpr hle)
    · exact ⟨rfl, rfl⟩
    · refine absurd ?_ h2
      have h8 : |(day.daily_totals.calories - c.daily_target.calories) /
          c.daily_target.calories * 100| =
          |day.daily_totals.calories - c.daily_target.calories| * 100 /
            c.daily_target.calories := dev_abs _ _ hT
      rw [gt_iff_lt, h8, lt_div_iff₀ hT]
      calc c.daily_target.calorie_tolerance_pct * (8/10) *
            c.daily_target.calories <
          |day.daily_totals.calories - c.daily_target.calories| * 100 := hgt
        _ = _ := rfl

/-- Claim C5, counterexample: a plan entirely within its calorie
tolerance can still be reported invalid — here because of an allergen
keyword match — so tolerance satisfaction alone does not make
`validate(...).is_valid` true. -/
theorem C5_within_tolerance_invalid_counterexample :
    |day_saumon.daily_totals.calories -
        plan_saumon.constraints.daily_target.calories| * 100 ≤
      plan_saumon.constraints.daily_target.calorie_tolerance_pct *
        plan_saumon.constraints.daily_target.calories ∧
    (validate (fun _ => none) plan_saumon).is_valid = false := by
  constructor
  · norm_num [day_saumon, plan_saumon]
  · have h1 : (check_calorie_tolerance day_saumon
        plan_saumon.constraints).1 = [] :=
      check_calorie_in_tolerance _ _ (by norm_num [plan_saumon])
        (by norm_num [day_saumon, plan_saumon])
    have h2 : check_allergens day_saumon plan_saumon.constraints =
        [{ severity := "error", code := "ALLERGEN_PRESENT",
           message := "allergene detecte", day := some 0,
           meal_type := some "lunch",
           food_id := some "ciqual_saumon" }] := by decide
    show (plan_saumon.days.flatMap
      (fun d => day_errors d plan_saumon.constraints)).isEmpty = false
    rw [show plan_saumon.days = [day_saumon] from rfl]
    simp only [List.flatMap_cons, List.flatMap_nil, List.append_nil]
    unfold day_errors
    rw [h1, h2]
    rfl

/-- Claim C5, witness. -/
theorem C5_validator_tolerance_witness :
    ((validate (fun _ => none) plan_riz).is_valid = true ∧
      (validate (fun _ => none) plan_riz).errors = []) ∧
    ((check_calorie_tolerance day_3000 constraints_2000).1 =
        [{ severity := "error", code := "CALORIE_OUT_OF_TOLERANCE",
           message := "hors tolerance calorique", day := some 0 }] ∧
      (check_calorie_tolerance day_3000 constraints_2000).2.1 = []) ∧
    ((check_calorie_tolerance day_2090 constraints_2000).1 = [] ∧
      (check_calorie_tolerance day_2090 constraints_2000).2.1 =
        [{ severity := "warning", code := "CALORIE_NEAR_LIMIT",
           message := "proche de la limite", day := some 0 }]) :=
  ⟨C5_validator_tolerance.1 (fun _ => none) plan_riz
      (by norm_num [plan_riz])
      (by
        intro day hd
        simp only [plan_riz, List.mem_singleton] at hd
        subst hd
        norm_num [day_riz, plan_riz])
      (by
        intro day hd
        simp only [plan_riz, List.mem_singleton] at hd
        subst hd
        decide)
      (by
        intro day hd
        simp only [plan_riz, List.mem_singleton] at hd
        subst hd
        decide),
   C5_validator_tolerance.2.1 day_3000 constraints_2000
      (by norm_num [constraints_2000])
      (by norm_num [day_3000, constraints_2000]),
   C5_validator_tolerance.2.2 day_2090 constraints_2000
      (by norm_num [constraints_2000])
      (by norm_num [day_2090, constraints_2000])
      (by norm_num [day_2090, constraints_2000])⟩

end MealPlanner
